import Mathlib

/-!
Verification of the LLM request broker implemented in
src/utils/llm_rate_limiter.py (class LLMRateLimiter).

Modelling conventions.

* The external language model backend is an oracle
  (backend : Nat → Outcome) giving the outcome of the n-th backend
  invocation made by the broker instance; the broker state carries the
  number of invocations made so far.
* Wall-clock time is an explicit parameter threaded through every
  operation.  Times and durations are integers measured in tenths of a
  second, so that every floating point constant of the source
  (0.7, 2.0, 60.0, 3600, 5.0, 300.0) is exactly representable:
  min_interval = 7, initial_backoff = 20, max_backoff = 600,
  cache_ttl = 36000, batch_timeout = 50, circuit_breaker_timeout = 3000.
  The backoff factor is a dimensionless multiplier and stays 2.
  asyncio.sleep(d) advances the local clock by d; backend invocations are
  modelled as instantaneous.
* The md5 cache digest is modelled by its preimage, the pair
  (messages, use_heavy_model): the source key is a deterministic function
  of exactly that pair, and the model treats the digest as collision free.
* Raised Python exceptions are modelled by the error side of Except;
  PyErr distinguishes QuotaExceededError, CircuitBreakerError and plain
  Exception, because generate_response catches exactly the first two.
* Every operation returns a RunResult carrying the value, the new broker
  state, the new clock and a log of observable events (backend
  invocations and sleeps), which the theorems inspect.
-/

/-- ASCII lowercasing of one character: model of Python str.lower
restricted to the ASCII range, which covers every indicator token and
keyword the source compares against. -/
def lowerChar (c : Char) : Char :=
  if 65 ≤ c.toNat ∧ c.toNat ≤ 90 then Char.ofNat (c.toNat + 32) else c

/-- The lowercased character sequence of a string (Python s.lower()). -/
def lowerStr (s : String) : List Char := s.toList.map lowerChar

/-- Whether the first list is an initial segment of the second. -/
def isSubAt : List Char → List Char → Bool
  | [], _ => true
  | _ :: _, [] => false
  | a :: as, b :: bs => a == b && isSubAt as bs

/-- Whether needle occurs contiguously inside haystack: model of the
Python membership test (needle in haystack) on strings. -/
def containsSub (needle : List Char) : List Char → Bool
  | [] => isSubAt needle []
  | b :: bs => isSubAt needle (b :: bs) || containsSub needle bs

/-- Quota indicator tokens of _is_quota_error. -/
def quotaIndicators : List String :=
  ["insufficient_quota", "quota exceeded", "billing", "exceeded your current quota"]

/-- Rate limit indicator tokens of _is_rate_limit_error. -/
def rateLimitIndicators : List String :=
  ["rate limit", "too many requests", "requests per minute",
   "requests per second", "rate limited", "throttled"]

/-- _is_quota_error: some quota indicator occurs in the lowercased error
message. -/
def isQuotaError (s : String) : Bool :=
  quotaIndicators.any (fun ind => containsSub ind.toList (lowerStr s))

/-- The bare rate limit wording test of _is_rate_limit_error, before the
quota exclusion is applied. -/
def rateWordPresent (s : String) : Bool :=
  rateLimitIndicators.any (fun ind => containsSub ind.toList (lowerStr s))

/-- _is_rate_limit_error: rate limit wording present and the message is
not a quota error. -/
def isRateLimitError (s : String) : Bool :=
  rateWordPresent s && !isQuotaError s

/-- The three-way error taxonomy of the specification. -/
inductive ErrClass
  | quota
  | rateLimit
  | other
  deriving DecidableEq

/-- The classification the source implements through its if/elif chains:
quota first, then rate limit, else other. -/
def classify (s : String) : ErrClass :=
  if isQuotaError s then ErrClass.quota
  else if isRateLimitError s then ErrClass.rateLimit
  else ErrClass.other

/-- Keywords of the scheduling branch of _get_fallback_response. -/
def schedulingKeywords : List String := ["schedule", "meeting", "book", "appointment"]

/-- Keywords of the greeting branch of _get_fallback_response. -/
def greetingKeywords : List String := ["hello", "hi", "start", "help"]

/-- Keywords of the cancellation branch of _get_fallback_response. -/
def changeKeywords : List String := ["cancel", "reschedule", "change"]

/-- Canned reply of the scheduling branch. -/
def schedulingReply : String :=
  "Hey! I'd love to help you schedule that meeting. I'm just taking a quick breather to handle some high demand, but I'll be back in a moment to help you out.\n\nWhile you wait, could you share:\n- What's the meeting about?\n- How long would you like it to be? (15, 30, 45, or 60 minutes)\n- Any preferred time that works for you?\n\nI'll make sure to get this scheduled for you as soon as I'm back at full speed!"

/-- Canned reply of the greeting branch. -/
def greetingReply : String :=
  "Hi there! I'm Athena, your friendly digital assistant. I'm just taking a quick break to handle some high traffic, but I'm still here to help! I can assist you with:\n\n- Scheduling meetings and appointments\n- Managing your contact information\n- Coordinating calendar availability\n\nWhat can I help you with today? I'll be back at full speed in just a moment!"

/-- Canned reply of the cancellation branch. -/
def changeReply : String :=
  "I understand you need to make some changes to your schedule. I'm just taking a quick break to handle some high demand, but I want to make sure I help you with this!\n\nCould you share what changes you'd like to make? I'll make sure to handle them as soon as I'm back at full speed. Your schedule is important to me!"

/-- Canned reply of the final else branch. -/
def genericReply : String :=
  "Hey! I'm just taking a quick breather to handle some high demand, but I'm still here to help! I can still assist you with basic tasks while I recover, and I'll be back at full speed in just a moment.\n\nWhat can I help you with? I'm all ears!"

/-- _get_fallback_response: case-insensitive keyword matching on the
message content, scheduling first, then greeting, then cancellation,
else the generic reply. -/
def getFallbackResponse (messageContent : String) : String :=
  let contentLower := lowerStr messageContent
  if schedulingKeywords.any (fun w => containsSub w.toList contentLower) then
    schedulingReply
  else if greetingKeywords.any (fun w => containsSub w.toList contentLower) then
    greetingReply
  else if changeKeywords.any (fun w => containsSub w.toList contentLower) then
    changeReply
  else
    genericReply

/-- The keyword groups of _get_fallback_response in source order, each
with its reply. -/
def fallbackGroups : List (List String × String) :=
  [(schedulingKeywords, schedulingReply),
   (greetingKeywords, greetingReply),
   (changeKeywords, changeReply)]

/-- Reply of the earliest keyword group matching the content, or the
generic reply when none matches.  This follows the words of the claim and
is compared with getFallbackResponse. -/
def firstMatchingReply (messageContent : String) : String :=
  match fallbackGroups.find?
      (fun g => g.1.any (fun w => containsSub w.toList (lowerStr messageContent))) with
  | some g => g.2
  | none => genericReply

/-- RateLimitConfig; times and durations in tenths of a second (see the
file comment), defaults from the source dataclass. -/
structure RateLimitConfig where
  minInterval : Int := 7
  maxRetries : Nat := 2
  initialBackoff : Int := 20
  maxBackoff : Int := 600
  backoffFactor : Int := 2
  cacheTTL : Int := 36000
  maxBatchSize : Nat := 3
  batchTimeout : Int := 50
  circuitBreakerThreshold : Nat := 3
  circuitBreakerTimeout : Int := 3000
  deriving DecidableEq

/-- The default configuration RateLimitConfig(). -/
def defaultConfig : RateLimitConfig := {}

/-- One role-tagged message segment of a request. -/
structure Msg where
  role : String
  content : String
  deriving DecidableEq

/-- Cache index: the pair the md5 digest is computed from. -/
abbrev CacheKey := List Msg × Bool

/-- _get_cache_key: deterministic digest of the serialized messages and
the model flag, modelled by its preimage. -/
def getCacheKey (messages : List Msg) (useHeavyModel : Bool) : CacheKey :=
  (messages, useHeavyModel)

/-- Outcome of one backend invocation: the response text, or the message
of the exception the call raised. -/
inductive Outcome
  | success (text : String)
  | failure (msg : String)
  deriving DecidableEq

/-- A raised Python exception, by type: QuotaExceededError,
CircuitBreakerError, or any other Exception.  The field is str(e). -/
inductive PyErr
  | quotaExceeded (msg : String)
  | circuitBreaker (msg : String)
  | generic (msg : String)
  deriving DecidableEq

/-- str(e) of a modelled exception. -/
def errStr : PyErr → String
  | PyErr.quotaExceeded m => m
  | PyErr.circuitBreaker m => m
  | PyErr.generic m => m

/-- Observable events of a run: a backend invocation, the pacing sleep of
_wait_for_rate_limit, a backoff sleep of a retry loop, and the fixed
sleep of the batch retry path. -/
inductive Event
  | invoke
  | sleepPacing (d : Int)
  | sleepBackoff (d : Int)
  | sleepRetry (d : Int)
  deriving DecidableEq

/-- Number of backend invocations recorded in a log. -/
def countInvoke (log : List Event) : Nat :=
  log.countP (fun e => decide (e = Event.invoke))

/-- The backoff sleep durations of a log, in order. -/
def backoffSleeps (log : List Event) : List Int :=
  log.filterMap (fun e =>
    match e with
    | Event.sleepBackoff d => some d
    | _ => none)

/-- Mutable state of an LLMRateLimiter instance (the fields the verified
claims depend on), plus the count of backend invocations made so far,
which indexes the backend oracle. -/
structure BrokerState where
  lastRequestTime : Int
  quotaErrorCount : Nat
  circuitOpen : Bool
  circuitOpenedAt : Int
  cache : List (CacheKey × String × Int)
  invocations : Nat
  deriving DecidableEq

/-- The state of a freshly constructed instance. -/
def initialState : BrokerState :=
  { lastRequestTime := 0, quotaErrorCount := 0, circuitOpen := false,
    circuitOpenedAt := 0, cache := [], invocations := 0 }

/-- Entries of the response cache other than the given key. -/
def cacheErase (cache : List (CacheKey × String × Int)) (k : CacheKey) :
    List (CacheKey × String × Int) :=
  cache.filter (fun e => !decide (e.1 = k))

/-- Dictionary lookup in the response cache. -/
def cacheLookup (cache : List (CacheKey × String × Int)) (k : CacheKey) :
    Option (String × Int) :=
  (cache.find? (fun e => decide (e.1 = k))).map (fun e => e.2)

/-- _check_circuit_breaker: returns whether the circuit is open, updating
the state (reset after the timeout, trip at the threshold). -/
def checkCircuitBreaker (cfg : RateLimitConfig) (st : BrokerState) (now : Int) :
    Bool × BrokerState :=
  if st.circuitOpen then
    if now - st.circuitOpenedAt > cfg.circuitBreakerTimeout then
      (false, { st with circuitOpen := false, quotaErrorCount := 0 })
    else
      (true, st)
  else if cfg.circuitBreakerThreshold ≤ st.quotaErrorCount then
    (true, { st with circuitOpen := true, circuitOpenedAt := now })
  else
    (false, st)

/-- _get_cached_response: a hit if the entry exists and is younger than
cache_ttl; an expired entry is deleted and reported as a miss. -/
def getCachedResponse (cfg : RateLimitConfig) (st : BrokerState)
    (key : CacheKey) (now : Int) : Option String × BrokerState :=
  match cacheLookup st.cache key with
  | some (resp, ts) =>
    if now - ts < cfg.cacheTTL then (some resp, st)
    else (none, { st with cache := cacheErase st.cache key })
  | none => (none, st)

/-- _cache_response: store the response under the key with the current
time. -/
def cacheResponse (st : BrokerState) (key : CacheKey) (resp : String)
    (now : Int) : BrokerState :=
  { st with cache := (key, resp, now) :: cacheErase st.cache key }

/-- _wait_for_rate_limit: the new clock and the pacing sleep performed,
if any. -/
def waitForRateLimit (cfg : RateLimitConfig) (st : BrokerState) (now : Int) :
    Int × List Event :=
  let timeSinceLast := now - st.lastRequestTime
  if timeSinceLast < cfg.minInterval then
    (now + (cfg.minInterval - timeSinceLast),
     [Event.sleepPacing (cfg.minInterval - timeSinceLast)])
  else
    (now, [])

/-- First message content, as the fallback extraction loop finds it: the
content of the first message, or the empty string for an empty list. -/
def firstContent : List Msg → String
  | [] => ""
  | m :: _ => m.content

/-- Result of one modelled operation: value, new state, new clock, event
log. -/
structure RunResult (α : Type) where
  result : α
  state : BrokerState
  now : Int
  log : List Event
  deriving DecidableEq

/-- The for-loop of _make_request (priority branch): up to fuel attempts
remain; called with fuel = max_retries + 1.  On success the quota error
count resets, last_request_time is recorded and the response is cached;
a quota failure increments the count and raises QuotaExceededError; a
rate limit failure sleeps min(backoff, max_backoff) and retries while
attempts remain, else re-raises; any other failure re-raises. -/
def makeRequestAttempts (cfg : RateLimitConfig) (key : CacheKey)
    (backend : Nat → Outcome) :
    Nat → Int → BrokerState → Int → RunResult (Except PyErr String)
  | 0, _, st, now =>
    ⟨Except.error (PyErr.generic "Max retries exceeded"), st, now, []⟩
  | fuel + 1, backoff, st, now =>
    match backend st.invocations with
    | Outcome.success text =>
      let st1 := { st with invocations := st.invocations + 1,
                           lastRequestTime := now, quotaErrorCount := 0 }
      ⟨Except.ok text, cacheResponse st1 key text now, now, [Event.invoke]⟩
    | Outcome.failure msg =>
      let st1 := { st with invocations := st.invocations + 1 }
      if isQuotaError msg then
        ⟨Except.error (PyErr.quotaExceeded ("OpenAI quota exceeded: " ++ msg)),
         { st1 with quotaErrorCount := st1.quotaErrorCount + 1 }, now,
         [Event.invoke]⟩
      else if isRateLimitError msg then
        if 0 < fuel then
          let wait := min backoff cfg.maxBackoff
          let r := makeRequestAttempts cfg key backend fuel
            (backoff * cfg.backoffFactor) st1 (now + wait)
          ⟨r.result, r.state, r.now,
           Event.invoke :: Event.sleepBackoff wait :: r.log⟩
        else
          ⟨Except.error (PyErr.generic msg), st1, now, [Event.invoke]⟩
      else
        ⟨Except.error (PyErr.generic msg), st1, now, [Event.invoke]⟩

/-- _make_request with priority=True: circuit breaker check (open circuit
answers with the fallback text), cache consultation (a present entry is
used only when its text is non-empty, mirroring the Python truthiness
test), then the paced, retried backend attempts. -/
def makeRequest (cfg : RateLimitConfig) (messages : List Msg)
    (useHeavyModel : Bool) (backend : Nat → Outcome) (st : BrokerState)
    (now : Int) : RunResult (Except PyErr String) :=
  let cb := checkCircuitBreaker cfg st now
  if cb.1 then
    ⟨Except.ok (getFallbackResponse (firstContent messages)), cb.2, now, []⟩
  else
    let key := getCacheKey messages useHeavyModel
    let cr := getCachedResponse cfg cb.2 key now
    let proceed : BrokerState → RunResult (Except PyErr String) := fun st1 =>
      let w := waitForRateLimit cfg st1 now
      let r := makeRequestAttempts cfg key backend (cfg.maxRetries + 1)
        cfg.initialBackoff st1 w.1
      ⟨r.result, r.state, r.now, w.2 ++ r.log⟩
    match cr.1 with
    | some resp => if resp = "" then proceed cr.2 else ⟨Except.ok resp, cr.2, now, []⟩
    | none => proceed cr.2

/-- The retry for-loop of generate_response (priority branch): each pass
calls _make_request; a rate limit failure sleeps min(backoff, max_backoff)
and retries while attempts remain, else re-raises; a quota failure
increments the count again and raises a fresh QuotaExceededError; other
failures re-raise. -/
def generateResponseAttempts (cfg : RateLimitConfig) (messages : List Msg)
    (useHeavyModel : Bool) (backend : Nat → Outcome) :
    Nat → Int → BrokerState → Int → RunResult (Except PyErr String)
  | 0, _, st, now =>
    ⟨Except.error (PyErr.generic "Max retries exceeded"), st, now, []⟩
  | fuel + 1, backoff, st, now =>
    let r := makeRequest cfg messages useHeavyModel backend st now
    match r.result with
    | Except.ok t => ⟨Except.ok t, r.state, r.now, r.log⟩
    | Except.error e =>
      let s := errStr e
      if isRateLimitError s then
        if 0 < fuel then
          let wait := min backoff cfg.maxBackoff
          let r2 := generateResponseAttempts cfg messages useHeavyModel backend
            fuel (backoff * cfg.backoffFactor) r.state (r.now + wait)
          ⟨r2.result, r2.state, r2.now,
           r.log ++ Event.sleepBackoff wait :: r2.log⟩
        else
          ⟨Except.error e, r.state, r.now, r.log⟩
      else if isQuotaError s then
        ⟨Except.error (PyErr.quotaExceeded ("OpenAI quota exceeded: " ++ s)),
         { r.state with quotaErrorCount := r.state.quotaErrorCount + 1 },
         r.now, r.log⟩
      else
        ⟨Except.error e, r.state, r.now, r.log⟩

/-- generate_response with priority=True, the public entry point: the
retry loop, with QuotaExceededError and CircuitBreakerError caught and
converted to the fallback response; every other exception propagates. -/
def generateResponse (cfg : RateLimitConfig) (messages : List Msg)
    (useHeavyModel : Bool) (backend : Nat → Outcome) (st : BrokerState)
    (now : Int) : RunResult (Except PyErr String) :=
  let r := generateResponseAttempts cfg messages useHeavyModel backend
    (cfg.maxRetries + 1) cfg.initialBackoff st now
  match r.result with
  | Except.error (PyErr.quotaExceeded _) =>
    ⟨Except.ok (getFallbackResponse (firstContent messages)), r.state, r.now, r.log⟩
  | Except.error (PyErr.circuitBreaker _) =>
    ⟨Except.ok (getFallbackResponse (firstContent messages)), r.state, r.now, r.log⟩
  | _ => r

/-- The per-item for-loop of _make_batch_request: each item is invoked in
turn; success appends the text and resets the quota error count; a quota
failure raises QuotaExceededError for the whole batch; a rate limit
failure sleeps min_interval and retries that item once, unguarded, so a
second failure raises the raw exception; any other failure raises.  On
completing every item, last_request_time is recorded and the responses
are returned in order. -/
def batchItemsLoop (cfg : RateLimitConfig) (backend : Nat → Outcome) :
    List (List Msg) → List String → BrokerState → Int →
    RunResult (Except PyErr (List String))
  | [], acc, st, now =>
    ⟨Except.ok acc.reverse, { st with lastRequestTime := now }, now, []⟩
  | _ :: rest, acc, st, now =>
    match backend st.invocations with
    | Outcome.success text =>
      let st1 := { st with invocations := st.invocations + 1, quotaErrorCount := 0 }
      let r := batchItemsLoop cfg backend rest (text :: acc) st1 now
      ⟨r.result, r.state, r.now, Event.invoke :: r.log⟩
    | Outcome.failure msg =>
      let st1 := { st with invocations := st.invocations + 1 }
      if isQuotaError msg then
        ⟨Except.error (PyErr.quotaExceeded ("OpenAI quota exceeded: " ++ msg)),
         { st1 with quotaErrorCount := st1.quotaErrorCount + 1 }, now,
         [Event.invoke]⟩
      else if isRateLimitError msg then
        match backend st1.invocations with
        | Outcome.success text =>
          let st2 := { st1 with invocations := st1.invocations + 1 }
          let r := batchItemsLoop cfg backend rest (text :: acc) st2
            (now + cfg.minInterval)
          ⟨r.result, r.state, r.now,
           Event.invoke :: Event.sleepRetry cfg.minInterval :: Event.invoke :: r.log⟩
        | Outcome.failure msg2 =>
          ⟨Except.error (PyErr.generic msg2),
           { st1 with invocations := st1.invocations + 1 },
           now + cfg.minInterval,
           [Event.invoke, Event.sleepRetry cfg.minInterval, Event.invoke]⟩
      else
        ⟨Except.error (PyErr.generic msg), st1, now, [Event.invoke]⟩

/-- _make_batch_request: circuit check (raising CircuitBreakerError when
open), pacing wait, then the per-item loop under the held lock.  Note
that this path never consults nor writes the response cache. -/
def makeBatchRequest (cfg : RateLimitConfig) (messagesList : List (List Msg))
    (_useHeavyModel : Bool) (backend : Nat → Outcome) (st : BrokerState)
    (now : Int) : RunResult (Except PyErr (List String)) :=
  let cb := checkCircuitBreaker cfg st now
  if cb.1 then
    ⟨Except.error (PyErr.circuitBreaker "Circuit breaker is open due to quota errors"),
     cb.2, now, []⟩
  else
    let w := waitForRateLimit cfg cb.2 now
    let r := batchItemsLoop cfg backend messagesList [] cb.2 w.1
    ⟨r.result, r.state, r.now, w.2 ++ r.log⟩

/-- Per-item delivery of one partition of a flushed batch, as
_process_batches performs it: on success each waiting future is zipped
with its response; on failure every future of the partition receives the
same exception. -/
def deliverPartition (items : List (Nat × List Msg))
    (r : Except PyErr (List String)) : List (Nat × Except PyErr String) :=
  match r with
  | Except.ok rs => (items.map Prod.fst).zip (rs.map Except.ok)
  | Except.error e => items.map (fun it => (it.1, Except.error e))

deriving instance DecidableEq for Except

/-- Result of one flush iteration of _process_batches: the outcome
delivered to each waiting future of the light and of the heavy
partition, plus the final broker state, clock and event log. -/
structure FlushResult where
  lightOutcomes : List (Nat × Except PyErr String)
  heavyOutcomes : List (Nat × Except PyErr String)
  state : BrokerState
  now : Int
  log : List Event
  deriving DecidableEq

/-- One wake of the _process_batches loop with a non-empty queue: sleep
batch_timeout, take up to max_batch_size items, split them by model
keeping submission order, then run the batched request first for the
light partition and then for the heavy partition, delivering outcomes
per partition. -/
def processFlush (cfg : RateLimitConfig) (batch : List (Nat × List Msg × Bool))
    (backend : Nat → Outcome) (st : BrokerState) (now : Int) : FlushResult :=
  let now0 := now + cfg.batchTimeout
  let current := batch.take cfg.maxBatchSize
  let lights := (current.filter (fun it => !it.2.2)).map (fun it => (it.1, it.2.1))
  let heavies := (current.filter (fun it => it.2.2)).map (fun it => (it.1, it.2.1))
  let stepL : RunResult (List (Nat × Except PyErr String)) :=
    if lights.isEmpty then ⟨[], st, now0, []⟩
    else
      let r := makeBatchRequest cfg (lights.map (fun it => it.2)) false backend st now0
      ⟨deliverPartition lights r.result, r.state, r.now, r.log⟩
  let stepH : RunResult (List (Nat × Except PyErr String)) :=
    if heavies.isEmpty then ⟨[], stepL.state, stepL.now, []⟩
    else
      let r := makeBatchRequest cfg (heavies.map (fun it => it.2)) true backend
        stepL.state stepL.now
      ⟨deliverPartition heavies r.result, r.state, r.now, r.log⟩
  ⟨stepL.result, stepH.result, stepH.state, stepH.now, stepL.log ++ stepH.log⟩

/-- Within one partition of a flush, outcomes are not independent: if any
item of the partition is delivered a failure, every item of the partition
is delivered that same failure. -/
def sharedFailure (outcomes : List (Nat × Except PyErr String)) : Prop :=
  ∀ e : PyErr, (∃ i : Nat, (i, Except.error e) ∈ outcomes) →
    ∀ p ∈ outcomes, p.2 = Except.error e

/-- Task handle state of the instance: the two background processor
handles, a fresh id supply, and the ids cancelled so far. -/
structure TaskState where
  queueProcessorTask : Option Nat
  batchProcessorTask : Option Nat
  nextTaskId : Nat
  cancelled : List Nat
  deriving DecidableEq

/-- The initialize method: create the queue processor task if its handle
is None, then the batch processor task if its handle is None. -/
def initTasks (ts : TaskState) : TaskState :=
  let ts1 :=
    if ts.queueProcessorTask = none then
      { ts with queueProcessorTask := some ts.nextTaskId,
                nextTaskId := ts.nextTaskId + 1 }
    else ts
  if ts1.batchProcessorTask = none then
    { ts1 with batchProcessorTask := some ts1.nextTaskId,
               nextTaskId := ts1.nextTaskId + 1 }
  else ts1

/-- The shutdown method: cancel whichever of the two tasks are running
and reset both handles to None. -/
def shutdownTasks (ts : TaskState) : TaskState :=
  { ts with
    cancelled := ts.cancelled ++ ts.queueProcessorTask.toList
      ++ ts.batchProcessorTask.toList,
    queueProcessorTask := none,
    batchProcessorTask := none }

/-- n successive calls of the initialize method. -/
def initTasksIter : Nat → TaskState → TaskState
  | 0, ts => ts
  | n + 1, ts => initTasksIter n (initTasks ts)

/-- A request message used by the concrete scenarios. -/
def msgHi : Msg := { role := "user", content := "ping" }

/-- A backend that always fails with rate limit wording. -/
def rlBackend : Nat → Outcome := fun _ => Outcome.failure "rate limit"

/-- A backend that always fails with quota wording. -/
def quotaBackend : Nat → Outcome := fun _ => Outcome.failure "insufficient_quota"

/-- A backend whose first invocation succeeds and whose later invocations
fail with quota wording. -/
def cexBatchBackend : Nat → Outcome := fun n =>
  if n = 0 then Outcome.success "ok!" else Outcome.failure "insufficient_quota"

/-- A backend that always succeeds with the empty string as text. -/
def emptyTextBackend : Nat → Outcome := fun _ => Outcome.success ""

/-- A backend that always succeeds with the text fresh. -/
def freshBackend : Nat → Outcome := fun _ => Outcome.success "fresh"

/-- A broker state holding one fresh cached response for ([msgHi], false). -/
def cachedSt : BrokerState :=
  { initialState with cache := [((([msgHi], false) : CacheKey), "cached", 0)] }

/-- A broker state whose cache holds the empty string for ([msgHi], false). -/
def emptyEntrySt : BrokerState :=
  { initialState with cache := [((([msgHi], false) : CacheKey), "", 0)] }

/-- A broker state whose last request lies one full pacing interval in the
past, so a submission at time 0 sleeps no extra time. -/
def pacedSt : BrokerState := { initialState with lastRequestTime := -7 }

/-- A broker state in which the threshold of consecutive quota errors has
been reached while the circuit is still closed. -/
def trippedSt : BrokerState := { initialState with quotaErrorCount := 3 }

set_option maxRecDepth 100000

lemma countInvoke_nil : countInvoke [] = 0 := rfl

lemma countInvoke_cons (e : Event) (l : List Event) :
    countInvoke (e :: l) = countInvoke l + (if e = Event.invoke then 1 else 0) := by
  simp [countInvoke, List.countP_cons]

lemma countInvoke_append (l1 l2 : List Event) :
    countInvoke (l1 ++ l2) = countInvoke l1 + countInvoke l2 := by
  simp [countInvoke, List.countP_append]

lemma countInvoke_wait (cfg : RateLimitConfig) (st : BrokerState) (now : Int) :
    countInvoke (waitForRateLimit cfg st now).2 = 0 := by
  simp only [waitForRateLimit]
  split <;> simp [countInvoke]

lemma checkCircuitBreaker_closed (cfg : RateLimitConfig) (st : BrokerState)
    (now : Int) (h1 : st.circuitOpen = false)
    (h2 : st.quotaErrorCount < cfg.circuitBreakerThreshold) :
    checkCircuitBreaker cfg st now = (false, st) := by
  simp [checkCircuitBreaker, h1, Nat.not_le.mpr h2]

lemma checkCircuitBreaker_trip (cfg : RateLimitConfig) (st : BrokerState)
    (now : Int) (h1 : st.circuitOpen = false)
    (h2 : cfg.circuitBreakerThreshold ≤ st.quotaErrorCount) :
    checkCircuitBreaker cfg st now
      = (true, { st with circuitOpen := true, circuitOpenedAt := now }) := by
  simp [checkCircuitBreaker, h1, h2]

lemma checkCircuitBreaker_stay_open (cfg : RateLimitConfig) (st : BrokerState)
    (now : Int) (h1 : st.circuitOpen = true)
    (h2 : ¬(now - st.circuitOpenedAt > cfg.circuitBreakerTimeout)) :
    checkCircuitBreaker cfg st now = (true, st) := by
  simp [checkCircuitBreaker, h1, h2]

lemma checkCircuitBreaker_reset (cfg : RateLimitConfig) (st : BrokerState)
    (now : Int) (h1 : st.circuitOpen = true)
    (h2 : now - st.circuitOpenedAt > cfg.circuitBreakerTimeout) :
    checkCircuitBreaker cfg st now
      = (false, { st with circuitOpen := false, quotaErrorCount := 0 }) := by
  simp [checkCircuitBreaker, h1, h2]

lemma countInvoke_attempts_pos (cfg : RateLimitConfig) (key : CacheKey)
    (backend : Nat → Outcome) (fuel : Nat) (backoff : Int) (st : BrokerState)
    (now : Int) (h : 0 < fuel) :
    0 < countInvoke (makeRequestAttempts cfg key backend fuel backoff st now).log := by
  cases fuel with
  | zero => exact absurd h (by omega)
  | succ m =>
    cases hb : backend st.invocations with
    | success text => simp [makeRequestAttempts, hb, countInvoke_cons]
    | failure msg =>
      simp only [makeRequestAttempts, hb]
      split
      · simp [countInvoke_cons]
      · split
        · split
          · simp [countInvoke_cons]
          · simp [countInvoke_cons]
        · simp [countInvoke_cons]

lemma initTasks_idem (ts : TaskState) : initTasks (initTasks ts) = initTasks ts := by
  cases hq : ts.queueProcessorTask <;> cases hb : ts.batchProcessorTask <;>
    simp [initTasks, hq, hb]

lemma initTasksIter_succ (n : Nat) :
    ∀ ts : TaskState, initTasksIter (n + 1) ts = initTasks ts := by
  induction n with
  | zero => intro ts; rfl
  | succ n ih =>
    intro ts
    show initTasksIter (n + 1) (initTasks ts) = initTasks ts
    rw [ih, initTasks_idem]

/-- Claim C7: classification is by case-insensitive substring match (two
messages with the same lowercasing classify identically); a message with
both quota wording and rate limit wording classifies as quota, never as
rate limit; a message with neither classifies as other. -/
theorem classify_precedence (s t : String) (hlow : lowerStr s = lowerStr t) :
    classify s = classify t ∧
    (isQuotaError s = true → rateWordPresent s = true →
      classify s = ErrClass.quota) ∧
    (isQuotaError s = false → rateWordPresent s = false →
      classify s = ErrClass.other) := by
  have hq : isQuotaError s = isQuotaError t := by
    simp [isQuotaError, hlow]
  have hrw : rateWordPresent s = rateWordPresent t := by
    simp [rateWordPresent, hlow]
  refine ⟨?_, ?_, ?_⟩
  · simp [classify, isRateLimitError, hq, hrw]
  · intro h1 _
    simp [classify, h1]
  · intro h1 h2
    simp [classify, isRateLimitError, h1, h2]

/-- Witness for C7 at a concrete pair of messages containing both kinds
of wording, differing only by case. -/
theorem classify_precedence_witness :
    lowerStr "QUOTA Exceeded after a Rate Limit" = lowerStr "quota exceeded after a rate limit" ∧
    (classify "QUOTA Exceeded after a Rate Limit" = classify "quota exceeded after a rate limit" ∧
     (isQuotaError "QUOTA Exceeded after a Rate Limit" = true →
       rateWordPresent "QUOTA Exceeded after a Rate Limit" = true →
       classify "QUOTA Exceeded after a Rate Limit" = ErrClass.quota) ∧
     (isQuotaError "QUOTA Exceeded after a Rate Limit" = false →
       rateWordPresent "QUOTA Exceeded after a Rate Limit" = false →
       classify "QUOTA Exceeded after a Rate Limit" = ErrClass.other)) :=
  ⟨by decide, classify_precedence _ _ (by decide)⟩

/-- Claim C9: the fallback responder applies its keyword groups in the
fixed order scheduling, greeting, cancellation: for every content its
reply is that of the earliest matching group (the generic reply when no
group matches), so content matching several groups receives the earliest
group reply. -/
theorem fallback_first_matching_group (c : String) :
    getFallbackResponse c = firstMatchingReply c := by
  rcases Bool.eq_false_or_eq_true
      (schedulingKeywords.any (fun w => containsSub w.data (lowerStr c))) with hs | hs <;>
  rcases Bool.eq_false_or_eq_true
      (greetingKeywords.any (fun w => containsSub w.data (lowerStr c))) with hg | hg <;>
  rcases Bool.eq_false_or_eq_true
      (changeKeywords.any (fun w => containsSub w.data (lowerStr c))) with hc | hc <;>
  simp [getFallbackResponse, firstMatchingReply, fallbackGroups, List.find?,
    String.toList, hs, hg, hc]

/-- Claim C10: the initialize method is idempotent (any number of calls
equals one call, which fills both task handles), and the shutdown method
cancels both running tasks and resets both handles to None, after which
initialize creates fresh tasks with new ids. -/
theorem init_idempotent_shutdown_resets (ts : TaskState) (n : Nat) :
    initTasksIter (n + 1) ts = initTasks ts ∧
    (initTasks ts).queueProcessorTask.isSome = true ∧
    (initTasks ts).batchProcessorTask.isSome = true ∧
    (shutdownTasks ts).queueProcessorTask = none ∧
    (shutdownTasks ts).batchProcessorTask = none ∧
    (shutdownTasks ts).cancelled
      = ts.cancelled ++ ts.queueProcessorTask.toList ++ ts.batchProcessorTask.toList ∧
    (initTasks (shutdownTasks ts)).queueProcessorTask = some ts.nextTaskId ∧
    (initTasks (shutdownTasks ts)).batchProcessorTask = some (ts.nextTaskId + 1) := by
  refine ⟨initTasksIter_succ n ts, ?_, ?_, rfl, rfl, rfl, ?_, ?_⟩
  · cases hq : ts.queueProcessorTask <;> cases hb : ts.batchProcessorTask <;>
      simp [initTasks, hq, hb]
  · cases hq : ts.queueProcessorTask <;> cases hb : ts.batchProcessorTask <;>
      simp [initTasks, hq, hb]
  · simp [initTasks, shutdownTasks]
  · simp [initTasks, shutdownTasks]

/-- Claim C8: a present and unexpired cache entry whose stored text is the
empty string is reported by the lookup, yet the submission treats it as a
miss (the Python truthiness test) and performs a fresh backend
invocation. -/
theorem empty_cache_entry_fresh_invokes (cfg : RateLimitConfig)
    (messages : List Msg) (heavy : Bool) (backend : Nat → Outcome)
    (st : BrokerState) (now ts : Int)
    (hopen : st.circuitOpen = false)
    (hcount : st.quotaErrorCount < cfg.circuitBreakerThreshold)
    (hc : cacheLookup st.cache (getCacheKey messages heavy) = some ("", ts))
    (hfresh : now - ts < cfg.cacheTTL) :
    getCachedResponse cfg st (getCacheKey messages heavy) now = (some "", st) ∧
    0 < countInvoke (makeRequest cfg messages heavy backend st now).log := by
  have hget : getCachedResponse cfg st (getCacheKey messages heavy) now
      = (some "", st) := by
    simp [getCachedResponse, hc, hfresh]
  refine ⟨hget, ?_⟩
  simp only [makeRequest, checkCircuitBreaker_closed cfg st now hopen hcount, hget,
    Bool.false_eq_true, if_false, eq_self_iff_true, if_true,
    countInvoke_append, countInvoke_wait]
  have := countInvoke_attempts_pos cfg (getCacheKey messages heavy) backend
    (cfg.maxRetries + 1) cfg.initialBackoff st
    (waitForRateLimit cfg st now).1 (by omega)
  omega

/-- Witness for C8: the concrete state emptyEntrySt holds a fresh cached
empty response, and the submission still invokes the backend. -/
theorem empty_cache_entry_fresh_invokes_witness :
    (emptyEntrySt.circuitOpen = false ∧
     emptyEntrySt.quotaErrorCount < defaultConfig.circuitBreakerThreshold ∧
     cacheLookup emptyEntrySt.cache (getCacheKey [msgHi] false) = some ("", 0) ∧
     (1 : Int) - 0 < defaultConfig.cacheTTL) ∧
    (getCachedResponse defaultConfig emptyEntrySt (getCacheKey [msgHi] false) 1
       = (some "", emptyEntrySt) ∧
     0 < countInvoke (makeRequest defaultConfig [msgHi] false freshBackend emptyEntrySt 1).log) :=
  ⟨⟨rfl, by decide, by decide, by decide⟩,
   empty_cache_entry_fresh_invokes defaultConfig [msgHi] false freshBackend
     emptyEntrySt 1 0 rfl (by decide) (by decide) (by decide)⟩

lemma sharedFailure_nil : sharedFailure [] := by
  intro e _ p hp
  exact absurd hp (List.not_mem_nil p)

lemma sharedFailure_deliverPartition (items : List (Nat × List Msg))
    (r : Except PyErr (List String)) :
    sharedFailure (deliverPartition items r) := by
  intro e he p hp
  cases r with
  | ok rs =>
    exfalso
    rcases he with ⟨i, hi⟩
    have h2 := (List.of_mem_zip hi).2
    simp [List.mem_map] at h2
  | error e2 =>
    rcases he with ⟨i, hi⟩
    simp only [deliverPartition, List.mem_map] at hi hp
    rcases hi with ⟨it, -, hit⟩
    have he2 : e2 = e := by
      have h3 := congrArg Prod.snd hit
      simpa using h3
    rcases hp with ⟨q, -, hq⟩
    rw [← hq, ← he2]

/-- Claim C1 amended: outcomes of a flushed batch are not delivered
independently within a model partition: if any item of the light (or of
the heavy) partition of a flush is delivered a failure, every sibling of
that same partition is delivered that same failure; only items of the
other partition of the flush are unaffected. -/
theorem batch_partition_failure_shared (cfg : RateLimitConfig)
    (batch : List (Nat × List Msg × Bool)) (backend : Nat → Outcome)
    (st : BrokerState) (now : Int) :
    sharedFailure (processFlush cfg batch backend st now).lightOutcomes ∧
    sharedFailure (processFlush cfg batch backend st now).heavyOutcomes := by
  simp only [processFlush]
  constructor
  · split
    · exact sharedFailure_nil
    · exact sharedFailure_deliverPartition _ _
  · split
    · exact sharedFailure_nil
    · exact sharedFailure_deliverPartition _ _

/-- Witness for C1 amended, at the concrete two-item flush of the
counterexample: item 1 fails with a quota error, and the theorem forces
item 0 of the same partition to receive that same failure. -/
theorem batch_partition_failure_shared_witness :
    (((0 : Nat), (Except.error (PyErr.quotaExceeded "OpenAI quota exceeded: insufficient_quota") : Except PyErr String)) : Nat × Except PyErr String).2
      = (Except.error (PyErr.quotaExceeded "OpenAI quota exceeded: insufficient_quota") : Except PyErr String) :=
  (batch_partition_failure_shared defaultConfig
      [(0, [msgHi], false), (1, [msgHi], false)] cexBatchBackend initialState 0).1
    (PyErr.quotaExceeded "OpenAI quota exceeded: insufficient_quota")
    ⟨1, by decide⟩
    (((0 : Nat), (Except.error (PyErr.quotaExceeded "OpenAI quota exceeded: insufficient_quota") : Except PyErr String)) : Nat × Except PyErr String)
    (by decide)

/-- Counterexample to C1 as stated: in a flushed batch of two light
items, the first item's own invocation succeeds (cexBatchBackend 0 is a
success) yet both waiting callers receive the quota failure raised by the
second item, so the first item does not receive its own independent
success. -/
theorem batch_sibling_failure_not_independent :
    cexBatchBackend 0 = Outcome.success "ok!" ∧
    (processFlush defaultConfig [(0, [msgHi], false), (1, [msgHi], false)]
        cexBatchBackend initialState 0).lightOutcomes
      = [(0, Except.error (PyErr.quotaExceeded "OpenAI quota exceeded: insufficient_quota")),
         (1, Except.error (PyErr.quotaExceeded "OpenAI quota exceeded: insufficient_quota"))] :=
  ⟨rfl, by decide⟩

lemma checkCircuitBreaker_cacheEq (cfg : RateLimitConfig) (st : BrokerState)
    (now : Int) : (checkCircuitBreaker cfg st now).2.cache = st.cache := by
  simp only [checkCircuitBreaker]
  split
  · split <;> rfl
  · split <;> rfl

lemma batchItemsLoop_cacheEq (cfg : RateLimitConfig) (backend : Nat → Outcome) :
    ∀ (msgs : List (List Msg)) (acc : List String) (st : BrokerState) (now : Int),
      (batchItemsLoop cfg backend msgs acc st now).state.cache = st.cache := by
  intro msgs
  induction msgs with
  | nil => intro acc st now; rfl
  | cons m rest ih =>
    intro acc st now
    unfold batchItemsLoop
    dsimp only
    split
    · simp [ih]
    · split
      · rfl
      · split
        · split
          · simp [ih]
          · rfl
        · rfl

/-- Claim C6 amended: when a batch is flushed, the per-item path shares
only the circuit breaker and the pacing with the priority path: the
response cache is bypassed entirely, never read and never written, so the
final cache always equals the initial cache. -/
theorem batch_cache_unchanged (cfg : RateLimitConfig)
    (msgsList : List (List Msg)) (heavy : Bool) (backend : Nat → Outcome)
    (st : BrokerState) (now : Int) :
    (makeBatchRequest cfg msgsList heavy backend st now).state.cache = st.cache := by
  simp only [makeBatchRequest]
  split
  · exact checkCircuitBreaker_cacheEq cfg st now
  · rw [batchItemsLoop_cacheEq]
    exact checkCircuitBreaker_cacheEq cfg st now

/-- Counterexample to C6 as stated: a batched item whose key has a fresh
cached response ("cached" stored at time 0, read at time 1) still causes
one backend invocation, returns the fresh backend text rather than the
cached text, and leaves the cache unchanged, so no successful response is
written back either. -/
theorem batch_bypasses_cache_cex :
    countInvoke (makeBatchRequest defaultConfig [[msgHi]] false freshBackend cachedSt 1).log = 1 ∧
    (makeBatchRequest defaultConfig [[msgHi]] false freshBackend cachedSt 1).result
      = Except.ok ["fresh"] ∧
    (makeBatchRequest defaultConfig [[msgHi]] false freshBackend cachedSt 1).state.cache
      = cachedSt.cache ∧
    getCachedResponse defaultConfig cachedSt (getCacheKey [msgHi] false) 1
      = (some "cached", cachedSt) :=
  ⟨by decide, by decide, by decide, by decide⟩

lemma makeRequest_circuit_open (cfg : RateLimitConfig) (messages : List Msg)
    (heavy : Bool) (backend : Nat → Outcome) (st : BrokerState) (now : Int)
    (h : (checkCircuitBreaker cfg st now).1 = true) :
    makeRequest cfg messages heavy backend st now
      = ⟨Except.ok (getFallbackResponse (firstContent messages)),
         (checkCircuitBreaker cfg st now).2, now, []⟩ := by
  simp [makeRequest, h]

lemma generateResponse_of_makeRequest_ok (cfg : RateLimitConfig)
    (messages : List Msg) (heavy : Bool) (backend : Nat → Outcome)
    (st : BrokerState) (now : Int) (t : String) (st2 : BrokerState)
    (now2 : Int) (log : List Event)
    (h : makeRequest cfg messages heavy backend st now
      = ⟨Except.ok t, st2, now2, log⟩) :
    generateResponse cfg messages heavy backend st now
      = ⟨Except.ok t, st2, now2, log⟩ := by
  simp only [generateResponse, generateResponseAttempts, h]

lemma generateResponse_log (cfg : RateLimitConfig) (messages : List Msg)
    (heavy : Bool) (backend : Nat → Outcome) (st : BrokerState) (now : Int) :
    (generateResponse cfg messages heavy backend st now).log
      = (generateResponseAttempts cfg messages heavy backend
          (cfg.maxRetries + 1) cfg.initialBackoff st now).log := by
  simp only [generateResponse]
  split <;> rfl

lemma countInvoke_makeRequest_le_generate (cfg : RateLimitConfig)
    (messages : List Msg) (heavy : Bool) (backend : Nat → Outcome)
    (st : BrokerState) (now : Int) :
    countInvoke (makeRequest cfg messages heavy backend st now).log
      ≤ countInvoke (generateResponse cfg messages heavy backend st now).log := by
  rw [generateResponse_log]
  simp only [generateResponseAttempts]
  split
  · exact Nat.le_refl _
  · split
    · split
      · simp only [countInvoke_append, countInvoke_cons]
        omega
      · exact Nat.le_refl _
    · split
      · exact Nat.le_refl _
      · exact Nat.le_refl _

/-- Claim C4: from a state in which the threshold of consecutive quota
failures has been reached (quotaErrorCount at or above the threshold,
each quota failure having incremented the count without any intervening
success) while the circuit is still marked closed: the next submission
opens the circuit at its arrival time and returns the fallback with no
backend invocation; every further submission within
circuitBreakerTimeout of the opening returns the fallback with no
backend invocation; once strictly more than circuitBreakerTimeout has
elapsed since the opening, the circuit check closes the circuit and
resets the count to 0, and the next submission (here with an empty
cache) performs a real backend invocation. -/
theorem circuit_trip_and_reset (cfg : RateLimitConfig) (messages : List Msg)
    (heavy : Bool) (backend : Nat → Outcome) (st : BrokerState)
    (t0 t1 t2 : Int)
    (hopen : st.circuitOpen = false)
    (hcount : cfg.circuitBreakerThreshold ≤ st.quotaErrorCount)
    (hcache : st.cache = [])
    (h1 : t1 - t0 ≤ cfg.circuitBreakerTimeout)
    (h2 : t2 - t0 > cfg.circuitBreakerTimeout) :
    (generateResponse cfg messages heavy backend st t0).result
      = Except.ok (getFallbackResponse (firstContent messages)) ∧
    countInvoke (generateResponse cfg messages heavy backend st t0).log = 0 ∧
    (generateResponse cfg messages heavy backend st t0).state
      = { st with circuitOpen := true, circuitOpenedAt := t0 } ∧
    (generateResponse cfg messages heavy backend
        (generateResponse cfg messages heavy backend st t0).state t1).result
      = Except.ok (getFallbackResponse (firstContent messages)) ∧
    countInvoke (generateResponse cfg messages heavy backend
        (generateResponse cfg messages heavy backend st t0).state t1).log = 0 ∧
    checkCircuitBreaker cfg (generateResponse cfg messages heavy backend st t0).state t2
      = (false, { st with circuitOpen := false, circuitOpenedAt := t0,
                          quotaErrorCount := 0 }) ∧
    0 < countInvoke (generateResponse cfg messages heavy backend
        (generateResponse cfg messages heavy backend st t0).state t2).log := by
  have hcb0 : checkCircuitBreaker cfg st t0
      = (true, { st with circuitOpen := true, circuitOpenedAt := t0 }) :=
    checkCircuitBreaker_trip cfg st t0 hopen hcount
  have hg0 : generateResponse cfg messages heavy backend st t0
      = ⟨Except.ok (getFallbackResponse (firstContent messages)),
         { st with circuitOpen := true, circuitOpenedAt := t0 }, t0, []⟩ := by
    apply generateResponse_of_makeRequest_ok
    rw [makeRequest_circuit_open cfg messages heavy backend st t0 (by rw [hcb0]),
      hcb0]
  have hcb1 : checkCircuitBreaker cfg
      { st with circuitOpen := true, circuitOpenedAt := t0 } t1
      = (true, { st with circuitOpen := true, circuitOpenedAt := t0 }) := by
    apply checkCircuitBreaker_stay_open
    · rfl
    · simp only [BrokerState.circuitOpenedAt]
      omega
  have hg1 : generateResponse cfg messages heavy backend
      { st with circuitOpen := true, circuitOpenedAt := t0 } t1
      = ⟨Except.ok (getFallbackResponse (firstContent messages)),
         { st with circuitOpen := true, circuitOpenedAt := t0 }, t1, []⟩ := by
    apply generateResponse_of_makeRequest_ok
    rw [makeRequest_circuit_open cfg messages heavy backend _ t1 (by rw [hcb1]),
      hcb1]
  have hcb2 : checkCircuitBreaker cfg
      { st with circuitOpen := true, circuitOpenedAt := t0 } t2
      = (false, { st with circuitOpen := false, circuitOpenedAt := t0,
                          quotaErrorCount := 0 }) := by
    have h3 := checkCircuitBreaker_reset cfg
      { st with circuitOpen := true, circuitOpenedAt := t0 } t2 rfl
      (by simp only [BrokerState.circuitOpenedAt]; omega)
    exact h3
  have hget2 : getCachedResponse cfg
      { st with circuitOpen := false, circuitOpenedAt := t0, quotaErrorCount := 0 }
      (getCacheKey messages heavy) t2
      = (none, { st with circuitOpen := false, circuitOpenedAt := t0,
                         quotaErrorCount := 0 }) := by
    simp [getCachedResponse, cacheLookup, hcache]
  have hmr2 : 0 < countInvoke (makeRequest cfg messages heavy backend
      { st with circuitOpen := true, circuitOpenedAt := t0 } t2).log := by
    simp only [makeRequest, hcb2, hget2, Bool.false_eq_true, if_false,
      countInvoke_append, countInvoke_wait]
    have := countInvoke_attempts_pos cfg (getCacheKey messages heavy) backend
      (cfg.maxRetries + 1) cfg.initialBackoff
      { st with circuitOpen := false, circuitOpenedAt := t0, quotaErrorCount := 0 }
      (waitForRateLimit cfg
        { st with circuitOpen := false, circuitOpenedAt := t0, quotaErrorCount := 0 }
        t2).1 (by omega)
    omega
  refine ⟨?_, ?_, ?_, ?_, ?_, ?_, ?_⟩
  · rw [hg0]
  · rw [hg0]; rfl
  · rw [hg0]
  · rw [hg0]; exact congrArg RunResult.result hg1
  · rw [hg0]
    rw [show (generateResponse cfg messages heavy backend
      { st with circuitOpen := true, circuitOpenedAt := t0 } t1).log = [] from
      congrArg RunResult.log hg1]
    rfl
  · rw [hg0]; exact hcb2
  · rw [hg0]
    calc 0 < countInvoke (makeRequest cfg messages heavy backend
            { st with circuitOpen := true, circuitOpenedAt := t0 } t2).log := hmr2
      _ ≤ _ := countInvoke_makeRequest_le_generate cfg messages heavy backend _ t2

/-- Witness for C4 at the default configuration: the circuit trips at
time 0, a submission at time 1000 (within the 3000 tenths timeout) is
still served the fallback, and at time 3001 the check closes the circuit
and the submission reaches the backend. -/
theorem circuit_trip_and_reset_witness :
    (trippedSt.circuitOpen = false ∧
     defaultConfig.circuitBreakerThreshold ≤ trippedSt.quotaErrorCount ∧
     trippedSt.cache = [] ∧
     (1000 : Int) - 0 ≤ defaultConfig.circuitBreakerTimeout ∧
     (3001 : Int) - 0 > defaultConfig.circuitBreakerTimeout) ∧
    ((generateResponse defaultConfig [msgHi] false freshBackend trippedSt 0).result
       = Except.ok (getFallbackResponse (firstContent [msgHi])) ∧
     countInvoke (generateResponse defaultConfig [msgHi] false freshBackend trippedSt 0).log = 0 ∧
     (generateResponse defaultConfig [msgHi] false freshBackend trippedSt 0).state
       = { trippedSt with circuitOpen := true, circuitOpenedAt := 0 } ∧
     (generateResponse defaultConfig [msgHi] false freshBackend
         (generateResponse defaultConfig [msgHi] false freshBackend trippedSt 0).state 1000).result
       = Except.ok (getFallbackResponse (firstContent [msgHi])) ∧
     countInvoke (generateResponse defaultConfig [msgHi] false freshBackend
         (generateResponse defaultConfig [msgHi] false freshBackend trippedSt 0).state 1000).log = 0 ∧
     checkCircuitBreaker defaultConfig
         (generateResponse defaultConfig [msgHi] false freshBackend trippedSt 0).state 3001
       = (false,
          { trippedSt with
            circuitOpen := false
            circuitOpenedAt := 0
            quotaErrorCount := 0 }) ∧
     0 < countInvoke (generateResponse defaultConfig [msgHi] false freshBackend
         (generateResponse defaultConfig [msgHi] false freshBackend trippedSt 0).state 3001).log) :=
  ⟨⟨rfl, by decide, rfl, by decide, by decide⟩,
   circuit_trip_and_reset defaultConfig [msgHi] false freshBackend trippedSt
     0 1000 3001 rfl (by decide) rfl (by decide) (by decide)⟩

/-- Claim C5 amended: two priority submissions with structurally
identical (messages, useHeavyModel) use the same deterministic cache key
(the lookup of the second finds the entry the first stored), and when
they are made within cacheTTL of each other while the circuit is closed
and the first backend response text is non-empty, exactly one backend
invocation occurs and the second submission returns the identical text.
The non-empty proviso is forced by the counterexample: an empty first
response is cached but re-read as a miss. -/
theorem cache_idempotence (cfg : RateLimitConfig) (messages : List Msg)
    (heavy : Bool) (backend : Nat → Outcome) (st : BrokerState)
    (t1 t2 : Int) (text : String)
    (hopen : st.circuitOpen = false)
    (hth : 0 < cfg.circuitBreakerThreshold)
    (hcount : st.quotaErrorCount < cfg.circuitBreakerThreshold)
    (hmiss : cacheLookup st.cache (getCacheKey messages heavy) = none)
    (hb : backend st.invocations = Outcome.success text)
    (htext : text ≠ "")
    (hpace : cfg.minInterval ≤ t1 - st.lastRequestTime)
    (hfresh : t2 - t1 < cfg.cacheTTL) :
    (generateResponse cfg messages heavy backend st t1).result = Except.ok text ∧
    countInvoke (generateResponse cfg messages heavy backend st t1).log = 1 ∧
    (generateResponse cfg messages heavy backend
        (generateResponse cfg messages heavy backend st t1).state t2).result
      = Except.ok text ∧
    countInvoke (generateResponse cfg messages heavy backend
        (generateResponse cfg messages heavy backend st t1).state t2).log = 0 := by
  have hw : waitForRateLimit cfg st t1 = (t1, []) := by
    simp only [waitForRateLimit]
    rw [if_neg (by omega)]
  have hat : makeRequestAttempts cfg (getCacheKey messages heavy) backend
      (cfg.maxRetries + 1) cfg.initialBackoff st t1
      = ⟨Except.ok text,
         cacheResponse
           { st with
             invocations := st.invocations + 1
             lastRequestTime := t1
             quotaErrorCount := 0 }
           (getCacheKey messages heavy) text t1, t1, [Event.invoke]⟩ := by
    simp only [makeRequestAttempts, hb]
  have hgetn : getCachedResponse cfg st (getCacheKey messages heavy) t1
      = (none, st) := by
    simp [getCachedResponse, hmiss]
  have hmr1 : makeRequest cfg messages heavy backend st t1
      = ⟨Except.ok text,
         cacheResponse
           { st with
             invocations := st.invocations + 1
             lastRequestTime := t1
             quotaErrorCount := 0 }
           (getCacheKey messages heavy) text t1, t1, [Event.invoke]⟩ := by
    simp only [makeRequest, checkCircuitBreaker_closed cfg st t1 hopen hcount,
      hgetn, hw, hat]
    simp
  have hgr1 := generateResponse_of_makeRequest_ok cfg messages heavy backend
    st t1 text _ _ _ hmr1
  have hopen1 : (cacheResponse
      { st with
        invocations := st.invocations + 1
        lastRequestTime := t1
        quotaErrorCount := 0 }
      (getCacheKey messages heavy) text t1).circuitOpen = false := by
    simp [cacheResponse, hopen]
  have hcount1 : (cacheResponse
      { st with
        invocations := st.invocations + 1
        lastRequestTime := t1
        quotaErrorCount := 0 }
      (getCacheKey messages heavy) text t1).quotaErrorCount
      < cfg.circuitBreakerThreshold := by
    simpa [cacheResponse] using hth
  have hlk : cacheLookup (cacheResponse
      { st with
        invocations := st.invocations + 1
        lastRequestTime := t1
        quotaErrorCount := 0 }
      (getCacheKey messages heavy) text t1).cache (getCacheKey messages heavy)
      = some (text, t1) := by
    simp [cacheResponse, cacheLookup, List.find?]
  have hget2 : getCachedResponse cfg
      (cacheResponse
        { st with
          invocations := st.invocations + 1
          lastRequestTime := t1
          quotaErrorCount := 0 }
        (getCacheKey messages heavy) text t1)
      (getCacheKey messages heavy) t2
      = (some text,
         cacheResponse
           { st with
             invocations := st.invocations + 1
             lastRequestTime := t1
             quotaErrorCount := 0 }
           (getCacheKey messages heavy) text t1) := by
    simp [getCachedResponse, hlk, hfresh]
  have hmr2 : makeRequest cfg messages heavy backend
      (cacheResponse
        { st with
          invocations := st.invocations + 1
          lastRequestTime := t1
          quotaErrorCount := 0 }
        (getCacheKey messages heavy) text t1) t2
      = ⟨Except.ok text,
         cacheResponse
           { st with
             invocations := st.invocations + 1
             lastRequestTime := t1
             quotaErrorCount := 0 }
           (getCacheKey messages heavy) text t1, t2, []⟩ := by
    simp only [makeRequest,
      checkCircuitBreaker_closed cfg _ t2 hopen1 hcount1, hget2]
    simp [htext]
  have hgr2 := generateResponse_of_makeRequest_ok cfg messages heavy backend
    _ t2 text _ _ _ hmr2
  refine ⟨?_, ?_, ?_, ?_⟩
  · rw [hgr1]
  · rw [hgr1]; rfl
  · simp only [hgr1, hgr2]
  · simp only [hgr1, hgr2]; rfl

/-- Witness for C5 amended: pacedSt made its previous request one pacing
interval before time 0, the first submission at time 0 stores the text
fresh, and the second submission at time 1 is served from the cache with
no backend invocation. -/
theorem cache_idempotence_witness :
    (pacedSt.circuitOpen = false ∧
     0 < defaultConfig.circuitBreakerThreshold ∧
     pacedSt.quotaErrorCount < defaultConfig.circuitBreakerThreshold ∧
     cacheLookup pacedSt.cache (getCacheKey [msgHi] false) = none ∧
     freshBackend pacedSt.invocations = Outcome.success "fresh" ∧
     "fresh" ≠ "" ∧
     defaultConfig.minInterval ≤ (0 : Int) - pacedSt.lastRequestTime ∧
     (1 : Int) - 0 < defaultConfig.cacheTTL) ∧
    ((generateResponse defaultConfig [msgHi] false freshBackend pacedSt 0).result
       = Except.ok "fresh" ∧
     countInvoke (generateResponse defaultConfig [msgHi] false freshBackend pacedSt 0).log = 1 ∧
     (generateResponse defaultConfig [msgHi] false freshBackend
         (generateResponse defaultConfig [msgHi] false freshBackend pacedSt 0).state 1).result
       = Except.ok "fresh" ∧
     countInvoke (generateResponse defaultConfig [msgHi] false freshBackend
         (generateResponse defaultConfig [msgHi] false freshBackend pacedSt 0).state 1).log = 0) :=
  ⟨⟨rfl, by decide, by decide, rfl, rfl, by decide, by decide, by decide⟩,
   cache_idempotence defaultConfig [msgHi] false freshBackend pacedSt 0 1 "fresh"
     rfl (by decide) (by decide) rfl rfl (by decide) (by decide) (by decide)⟩

/-- Counterexample to C5 as stated: with a backend whose response text is
the empty string, two structurally identical priority submissions made
one tenth of a second apart (well within cacheTTL, circuit closed) cause
two backend invocations, not one: the cached empty text is re-read as a
miss. -/
theorem cache_idempotence_empty_cex :
    (1 : Int) - 0 < defaultConfig.cacheTTL ∧
    countInvoke (generateResponse defaultConfig [msgHi] false emptyTextBackend initialState 0).log +
      countInvoke (generateResponse defaultConfig [msgHi] false emptyTextBackend
        (generateResponse defaultConfig [msgHi] false emptyTextBackend initialState 0).state 1).log
      = 2 :=
  ⟨by decide, by decide⟩

lemma countInvoke_attempts_le (cfg : RateLimitConfig) (key : CacheKey)
    (backend : Nat → Outcome) :
    ∀ (fuel : Nat) (backoff : Int) (st : BrokerState) (now : Int),
      countInvoke (makeRequestAttempts cfg key backend fuel backoff st now).log ≤ fuel := by
  intro fuel
  induction fuel with
  | zero => intro backoff st now; simp [makeRequestAttempts, countInvoke]
  | succ m ih =>
    intro backoff st now
    unfold makeRequestAttempts
    dsimp only
    split
    · simp [countInvoke_cons, countInvoke_nil]
    · split
      · simp [countInvoke_cons, countInvoke_nil]
      · split
        · split
          · simp only [RunResult.log, countInvoke_cons]
            have H := ih (backoff * cfg.backoffFactor)
              { st with invocations := st.invocations + 1 }
              (now + min backoff cfg.maxBackoff)
            simp at H ⊢
            omega
          · simp [countInvoke_cons, countInvoke_nil]
        · simp [countInvoke_cons, countInvoke_nil]

lemma countInvoke_makeRequest_le (cfg : RateLimitConfig) (messages : List Msg)
    (heavy : Bool) (backend : Nat → Outcome) (st : BrokerState) (now : Int) :
    countInvoke (makeRequest cfg messages heavy backend st now).log
      ≤ cfg.maxRetries + 1 := by
  simp only [makeRequest]
  split
  · simp [countInvoke]
  · split
    · split
      · simp only [RunResult.log, countInvoke_append, countInvoke_wait]
        simpa using countInvoke_attempts_le cfg (getCacheKey messages heavy)
          backend (cfg.maxRetries + 1) cfg.initialBackoff _ _
      · simp [countInvoke]
    · simp only [RunResult.log, countInvoke_append, countInvoke_wait]
      simpa using countInvoke_attempts_le cfg (getCacheKey messages heavy)
        backend (cfg.maxRetries + 1) cfg.initialBackoff _ _

lemma countInvoke_genAttempts_le (cfg : RateLimitConfig) (messages : List Msg)
    (heavy : Bool) (backend : Nat → Outcome) :
    ∀ (fuel : Nat) (backoff : Int) (st : BrokerState) (now : Int),
      countInvoke (generateResponseAttempts cfg messages heavy backend
        fuel backoff st now).log ≤ fuel * (cfg.maxRetries + 1) := by
  intro fuel
  induction fuel with
  | zero => intro backoff st now; simp [generateResponseAttempts, countInvoke]
  | succ m ih =>
    intro backoff st now
    unfold generateResponseAttempts
    dsimp only
    split
    · have h1 := countInvoke_makeRequest_le cfg messages heavy backend st now
      dsimp only
      rw [Nat.succ_mul]
      omega
    · split
      · split
        · simp only [RunResult.log, countInvoke_append, countInvoke_cons]
          have h1 := countInvoke_makeRequest_le cfg messages heavy backend st now
          have h2 := ih (backoff * cfg.backoffFactor)
            (makeRequest cfg messages heavy backend st now).state
            ((makeRequest cfg messages heavy backend st now).now
              + min backoff cfg.maxBackoff)
          rw [Nat.succ_mul]
          simp at h2 ⊢
          omega
        · have h1 := countInvoke_makeRequest_le cfg messages heavy backend st now
          dsimp only
          rw [Nat.succ_mul]
          omega
      · split
        · have h1 := countInvoke_makeRequest_le cfg messages heavy backend st now
          dsimp only
          rw [Nat.succ_mul]
          omega
        · have h1 := countInvoke_makeRequest_le cfg messages heavy backend st now
          dsimp only
          rw [Nat.succ_mul]
          omega

lemma backoffSleeps_append (l1 l2 : List Event) :
    backoffSleeps (l1 ++ l2) = backoffSleeps l1 ++ backoffSleeps l2 := by
  simp [backoffSleeps]

lemma backoffSleeps_wait (cfg : RateLimitConfig) (st : BrokerState) (now : Int) :
    backoffSleeps (waitForRateLimit cfg st now).2 = [] := by
  simp only [waitForRateLimit]
  split <;> simp [backoffSleeps]

lemma backoffSleeps_attempts (cfg : RateLimitConfig) (key : CacheKey)
    (backend : Nat → Outcome) (rlMsg : String)
    (hb : ∀ n, backend n = Outcome.failure rlMsg)
    (hq : isQuotaError rlMsg = false)
    (hr : isRateLimitError rlMsg = true) :
    ∀ (m : Nat) (backoff : Int) (st : BrokerState) (now : Int),
      backoffSleeps (makeRequestAttempts cfg key backend (m + 1) backoff st now).log
        = (List.range m).map
            (fun k => min (backoff * cfg.backoffFactor ^ k) cfg.maxBackoff) := by
  intro m
  induction m with
  | zero =>
    intro backoff st now
    simp [makeRequestAttempts, hb, hq, hr, backoffSleeps]
  | succ m ih =>
    intro backoff st now
    unfold makeRequestAttempts
    simp only [hb, hq, hr, Bool.false_eq_true, if_false, if_true,
      Nat.zero_lt_succ, RunResult.log]
    have step : backoffSleeps (Event.invoke :: Event.sleepBackoff
        (min backoff cfg.maxBackoff) :: (makeRequestAttempts cfg key backend
          (m + 1) (backoff * cfg.backoffFactor)
          { st with invocations := st.invocations + 1 }
          (now + min backoff cfg.maxBackoff)).log)
        = min backoff cfg.maxBackoff :: backoffSleeps
            (makeRequestAttempts cfg key backend (m + 1)
              (backoff * cfg.backoffFactor)
              { st with invocations := st.invocations + 1 }
              (now + min backoff cfg.maxBackoff)).log := by
      simp [backoffSleeps]
    rw [step, ih]
    rw [List.range_succ_eq_map, List.map_cons, List.map_map]
    congr 1
    · simp
    · apply List.map_congr_left
      intro k _
      simp only [Function.comp]
      congr 1
      rw [pow_succ]
      ring

/-- Claim C2 amended: a priority submission through the public entry
point retries in two nested loops: each _make_request pass attempts the
backend at most maxRetries + 1 times and generate_response repeats the
whole pass up to maxRetries + 1 times, so the backend is attempted at
most (maxRetries + 1) * (maxRetries + 1) times in total, not
maxRetries + 1; within one pass, on consecutive RateLimit failures the
sleep before retry attempt k + 1 equals
min(initialBackoff * backoffFactor ^ (k - 1), maxBackoff). -/
theorem priority_retry_amended (cfg : RateLimitConfig) (messages : List Msg)
    (heavy : Bool) (backend : Nat → Outcome) (st : BrokerState) (now : Int)
    (rlMsg : String)
    (hb : ∀ n, backend n = Outcome.failure rlMsg)
    (hq : isQuotaError rlMsg = false)
    (hr : isRateLimitError rlMsg = true)
    (hopen : st.circuitOpen = false)
    (hcount : st.quotaErrorCount < cfg.circuitBreakerThreshold)
    (hmiss : cacheLookup st.cache (getCacheKey messages heavy) = none) :
    countInvoke (generateResponse cfg messages heavy backend st now).log
      ≤ (cfg.maxRetries + 1) * (cfg.maxRetries + 1) ∧
    backoffSleeps (makeRequest cfg messages heavy backend st now).log
      = (List.range cfg.maxRetries).map
          (fun k => min (cfg.initialBackoff * cfg.backoffFactor ^ k) cfg.maxBackoff) := by
  constructor
  · rw [generateResponse_log]
    exact countInvoke_genAttempts_le cfg messages heavy backend
      (cfg.maxRetries + 1) cfg.initialBackoff st now
  · have hgetn : getCachedResponse cfg st (getCacheKey messages heavy) now
        = (none, st) := by
      simp [getCachedResponse, hmiss]
    simp only [makeRequest, checkCircuitBreaker_closed cfg st now hopen hcount,
      hgetn, Bool.false_eq_true, if_false, RunResult.log,
      backoffSleeps_append, backoffSleeps_wait]
    rw [backoffSleeps_attempts cfg (getCacheKey messages heavy) backend rlMsg
      hb hq hr cfg.maxRetries]
    simp

/-- Witness for C2 amended at the default configuration and a constantly
rate limited backend: at most 9 attempts, and one pass sleeps 20 then 40
tenths of a second (2 then 4 seconds). -/
theorem priority_retry_amended_witness :
    countInvoke (generateResponse defaultConfig [msgHi] false rlBackend initialState 0).log
      ≤ (defaultConfig.maxRetries + 1) * (defaultConfig.maxRetries + 1) ∧
    backoffSleeps (makeRequest defaultConfig [msgHi] false rlBackend initialState 0).log
      = (List.range defaultConfig.maxRetries).map
          (fun k => min (defaultConfig.initialBackoff * defaultConfig.backoffFactor ^ k)
            defaultConfig.maxBackoff) :=
  priority_retry_amended defaultConfig [msgHi] false rlBackend initialState 0
    "rate limit" (fun _ => rfl) (by decide) (by decide) rfl (by decide) rfl

/-- Counterexample to C2 as stated: with the default configuration
(maxRetries = 2) and a backend that always fails with rate limit
wording, one priority submission through generate_response attempts the
backend 9 times, exceeding the claimed bound maxRetries + 1 = 3. -/
theorem priority_attempts_exceed_bound :
    countInvoke (generateResponse defaultConfig [msgHi] false rlBackend initialState 0).log = 9 ∧
    ¬ countInvoke (generateResponse defaultConfig [msgHi] false rlBackend initialState 0).log
        ≤ defaultConfig.maxRetries + 1 :=
  ⟨by decide, by decide⟩

/-- Claim C3 amended: the public entry point absorbs QuotaExceededError
and CircuitBreakerError into the fallback response (any exception it
lets escape is a plain backend exception, and a quota failure of the
retry loop is always converted to the fallback text), but a rate limit
failure that exhausts all retries is re-raised as the raw backend
exception and does propagate to the caller. -/
theorem quota_circuit_absorbed (cfg : RateLimitConfig) (messages : List Msg)
    (heavy : Bool) (backend : Nat → Outcome) (st : BrokerState) (now : Int) :
    (∀ e : PyErr,
      (generateResponse cfg messages heavy backend st now).result = Except.error e →
      ∃ m : String, e = PyErr.generic m) ∧
    (∀ m : String,
      (generateResponseAttempts cfg messages heavy backend (cfg.maxRetries + 1)
          cfg.initialBackoff st now).result = Except.error (PyErr.quotaExceeded m) →
      (generateResponse cfg messages heavy backend st now).result
        = Except.ok (getFallbackResponse (firstContent messages))) := by
  constructor
  · intro e he
    simp only [generateResponse] at he
    rcases hres : (generateResponseAttempts cfg messages heavy backend
        (cfg.maxRetries + 1) cfg.initialBackoff st now).result with e2 | t
    case ok =>
      rw [hres] at he
      simp at he
      rw [hres] at he
      simp at he
    case error =>
      cases e2 with
      | quotaExceeded m =>
        rw [hres] at he
        simp at he
      | circuitBreaker m =>
        rw [hres] at he
        simp at he
      | generic m =>
        rw [hres] at he
        simp at he
        rw [hres] at he
        exact ⟨m, by injection he.symm⟩
  · intro m hm
    simp only [generateResponse, hm]

/-- Witness for C3 amended: with a constantly rate limited backend the
escaped exception is the plain backend exception, and with a constantly
quota erroring backend the quota failure is converted to the fallback
text. -/
theorem quota_circuit_absorbed_witness :
    (∃ m2 : String, PyErr.generic "rate limit" = PyErr.generic m2) ∧
    (generateResponse defaultConfig [msgHi] false quotaBackend initialState 0).result
      = Except.ok (getFallbackResponse (firstContent [msgHi])) :=
  ⟨(quota_circuit_absorbed defaultConfig [msgHi] false rlBackend initialState 0).1
     (PyErr.generic "rate limit") (by decide),
   (quota_circuit_absorbed defaultConfig [msgHi] false quotaBackend initialState 0).2
     "OpenAI quota exceeded: OpenAI quota exceeded: insufficient_quota" (by decide)⟩

/-- Counterexample to C3 as stated: a priority submission whose rate
limit failures exhaust all retries raises the raw backend exception to
the caller instead of returning a fallback text: the outer try of
generate_response catches only QuotaExceededError and
CircuitBreakerError. -/
theorem rate_limit_exhaustion_raises :
    (generateResponse defaultConfig [msgHi] false rlBackend initialState 0).result
      = Except.error (PyErr.generic "rate limit") := by
  decide
